import Mathlib

/-!
Verification of the STAPI FastAPI root-router pagination and link-assembly
layer (`stapi_fastapi/routers/root_router.py`), shallowly embedded in Lean.

Python `match` semantics are modelled faithfully: in
`case Success((orders, Nothing))` the identifier `Nothing` is a capture
pattern (no `Nothing` is imported in the source module), so that branch
matches ANY `Success` carrying a 2-tuple whose second component was not
matched by the earlier `Some(...)` class pattern.  The cursor slot of a
backend list result is therefore modelled as either a genuine `Some token`
or an arbitrary other Python value.
-/

namespace Stapi

/-- Media-type constant from `stapi_fastapi.constants`. -/
def TYPE_JSON : String := "application/json"

/-- Media-type constant from `stapi_fastapi.constants`. -/
def TYPE_GEOJSON : String := "application/geo+json"

/-- Modelled from the spec: the `CORE` conformance identifier constant lives in
`stapi_fastapi.models.conformance`, which is not among the provided source
files; only its identity as a fixed string matters here. -/
def CORE : String := "https://stapi.example.com/v0.1.0/core"

/-- Modelled from the spec: the `ASYNC_OPPORTUNITIES` conformance identifier
constant lives in `stapi_fastapi.models.conformance`, which is not among the
provided source files; only its identity as a fixed string distinct from
`CORE` matters here. -/
def ASYNC_OPPORTUNITIES : String := "https://stapi.example.com/v0.1.0/async-opportunities"

/-- Hypermedia link value (`stapi_fastapi.models.shared.Link`): href, rel and
media type. -/
structure Link where
  href : String
  rel : String
  type : String
  deriving Repr, DecidableEq

/-- The slice of an incoming HTTP request the router reads: a base used by
route-name reverse lookup (`request.url_for`) and the current full URL
(`request.url`). -/
structure Request where
  base : String
  url : String
  deriving Repr, DecidableEq

/-- Modelled from the spec: FastAPI's `request.url_for(name, **params)`
reverse-routing (framework code, not part of this repository) — renders a URL
from a route name and path parameters. -/
def url_for (req : Request) (route : String) (params : List String) : String :=
  req.base ++ "/" ++ route ++ String.join (params.map (fun p => "/" ++ p))

/-- Modelled from the spec: `request.url.include_query_params(next=token)`
(framework code) — the current request URL re-issued with the `next` query
parameter set to the token. -/
def include_query_params (url : String) (token : String) : String :=
  url ++ "?next=" ++ token

/-- A Python value other than `Some(...)` that a backend may place where the
router expects a pagination cursor, or return in place of a whole result.
`nothingMaybe` is the `returns.maybe.Nothing` singleton; `strV` covers the
bare string tokens the bundled in-memory backend returns. -/
inductive PyShape where
  | noneV : PyShape
  | nothingMaybe : PyShape
  | strV (s : String) : PyShape
  | intV (n : Int) : PyShape
  deriving Repr, DecidableEq

/-- The error class carried by a `Failure`, as far as the router's class
patterns distinguish them: `ValueError`, `KeyError`, or anything else. -/
inductive PyError where
  | valueError : PyError
  | keyError : PyError
  | otherError (msg : String) : PyError
  deriving Repr, DecidableEq

/-- The second component of a 2-tuple inside a `Success`: either a genuine
`returns.maybe.Some token`, or any other Python value (matched by the capture
pattern `Nothing` in the source). -/
inductive CursorSlot where
  | someTok (token : String) : CursorSlot
  | other (v : PyShape) : CursorSlot
  deriving Repr, DecidableEq

/-- A backend result for a list operation, classified by the shapes the
router's `match` statement can distinguish: a `Success` of a 2-tuple, a
`Success` of any other shape, a `Failure`, or a value that is neither. -/
inductive ListBackendResult (α : Type) where
  | successPair (items : List α) (cursor : CursorSlot) : ListBackendResult α
  | successOther (v : PyShape) : ListBackendResult α
  | failure (e : PyError) : ListBackendResult α
  | nonResult (v : PyShape) : ListBackendResult α
  deriving Repr, DecidableEq

/-- A backend result for a single-resource lookup: `Success(Some x)`,
`Success(Maybe.empty)`, a `Success` of any other shape, a `Failure`, or a
value that is neither. -/
inductive SingleBackendResult (α : Type) where
  | successSome (x : α) : SingleBackendResult α
  | successNothing : SingleBackendResult α
  | successOther (v : PyShape) : SingleBackendResult α
  | failure (e : PyError) : SingleBackendResult α
  | nonResult (v : PyShape) : SingleBackendResult α
  deriving Repr, DecidableEq

/-- Outcome of a route handler: a response body, a raised
`NotFoundException` (404), a raised `HTTPException` 500, or a raised
`AssertionError`. -/
inductive HandlerResult (α : Type) where
  | ok (value : α) : HandlerResult α
  | notFound (detail : String) : HandlerResult α
  | internal (detail : String) : HandlerResult α
  | assertionFail (msg : String) : HandlerResult α
  deriving Repr, DecidableEq

/-- Order resource as the router reads it: an id and an appendable link list. -/
structure Order where
  id : String
  links : List Link
  deriving Repr, DecidableEq

/-- The `OrderCollection` response model: features plus top-level links. -/
structure OrderCollection where
  features : List Order
  links : List Link
  deriving Repr, DecidableEq

/-- Order-status resource; the router never reads its fields. -/
structure OrderStatus where
  status_code : String
  deriving Repr, DecidableEq

/-- The `OrderStatuses` response model. -/
structure OrderStatuses where
  statuses : List OrderStatus
  links : List Link
  deriving Repr, DecidableEq

/-- Opportunity-search-record resource: an id and an appendable link list. -/
structure OpportunitySearchRecord where
  id : String
  links : List Link
  deriving Repr, DecidableEq

/-- The `OpportunitySearchRecords` response model. -/
structure OpportunitySearchRecords where
  search_records : List OpportunitySearchRecord
  links : List Link
  deriving Repr, DecidableEq

/-- Product resource: the router only reads its id. -/
structure Product where
  id : String
  deriving Repr, DecidableEq

/-- A product sub-resource router; `ProductRouter(product, self)` keeps the
product whose detail endpoint it serves. -/
structure ProductRouter where
  product : Product
  deriving Repr, DecidableEq

/-- The `RootResponse` model returned by `get_root`. -/
structure RootResponse where
  id : String
  conformsTo : List String
  links : List Link
  deriving Repr, DecidableEq

/-- The `RootRouter` state the route handlers read: conformances, name, the
two optional async-opportunity backend attributes (present iff the
corresponding constructor argument was not `None`), the endpoint names used
for the service-description/service-docs links, the product-router registry
(an insertion-ordered dict, modelled as an association list) and the derived
ordered product-id list. -/
structure RouterState where
  conformances : List String
  name : String
  opp_search_records_attr : Option Unit
  opp_search_record_attr : Option Unit
  openapi_endpoint_name : String
  docs_endpoint_name : String
  product_routers : List (String × ProductRouter)
  product_ids : List String
  deriving Repr, DecidableEq

/-- Model of `RootRouter.__init__` (root_router.py lines 43-84): raises `ValueError`
when `ASYNC_OPPORTUNITIES` is among the conformances and either optional
backend function is `None` (Python truthiness of a function/None); otherwise
stores the attributes (only when not `None`) and starts with an empty
registry. -/
def rootRouterInit (get_opportunity_search_records : Option Unit)
    (get_opportunity_search_record : Option Unit)
    (conformances : List String) (name : String)
    (openapi_endpoint_name : String) (docs_endpoint_name : String) :
    Except String RouterState :=
  if conformances.contains ASYNC_OPPORTUNITIES &&
      (get_opportunity_search_records.isNone || get_opportunity_search_record.isNone) then
    Except.error
      "`get_opportunity_search_records` and `get_opportunity_search_record` are required when advertising async opportunity search conformance"
  else
    Except.ok
      { conformances := conformances
        name := name
        opp_search_records_attr := get_opportunity_search_records
        opp_search_record_attr := get_opportunity_search_record
        openapi_endpoint_name := openapi_endpoint_name
        docs_endpoint_name := docs_endpoint_name
        product_routers := []
        product_ids := [] }

/-- Model of `supports_async_opportunity_search` (lines 453-459): the conformance
identifier is declared and both backend attributes were stored. -/
def supports_async_opportunity_search (r : RouterState) : Bool :=
  r.conformances.contains ASYNC_OPPORTUNITIES &&
    r.opp_search_records_attr.isSome && r.opp_search_record_attr.isSome

/-- Model of `pagination_link` (lines 371-376). -/
def pagination_link (req : Request) (pagination_token : String) : Link :=
  { href := include_query_params req.url pagination_token
    rel := "next"
    type := TYPE_JSON }

/-- Model of `order_link` (lines 352-357). -/
def order_link (r : RouterState) (req : Request) (order : Order) : Link :=
  { href := url_for req (r.name ++ ":get-order") [order.id]
    rel := "self"
    type := TYPE_JSON }

/-- Model of `order_statuses_link` (lines 359-369). -/
def order_statuses_link (r : RouterState) (req : Request) (order_id : String) : Link :=
  { href := url_for req (r.name ++ ":list-order-statuses") [order_id]
    rel := "self"
    type := TYPE_JSON }

/-- Python list slicing `xs[start:stop]` for a non-negative `start` and an
arbitrary (possibly negative) integer `stop`: a negative `stop` counts from
the end of the list. -/
def pySlice {α : Type} (xs : List α) (start : Nat) (stop : Int) : List α :=
  let stopIdx : Nat :=
    if stop < 0 then ((xs.length : Int) + stop).toNat else min stop.toNat xs.length
  (xs.take stopIdx).drop start

/-- Python `list.index(s)`: the first index holding `s`, with `none` standing
for the raised `ValueError` when `s` is absent. -/
def list_index (s : String) : List String → Option Nat
  | [] => none
  | x :: xs => if x = s then some 0 else (list_index s xs).map (fun i => i + 1)

/-- The `start` computed by `get_products` (lines 213-222): `0` when `next` is
absent or falsy (the empty string), otherwise `self.product_ids.index(next)`,
with `none` standing for the `ValueError` raised when the id is missing. -/
def cursor_start (ids : List String) (next : Option String) : Option Nat :=
  match next with
  | none => some 0
  | some s => if s = "" then some 0 else list_index s ids

/-- The `ProductsCollection` response model: the page of product details (each
`self.product_routers[product_id].get_product(request)` echoes the stored
product) plus links. -/
structure ProductsCollection where
  products : List Product
  links : List Link
  deriving Repr, DecidableEq

/-- Model of `get_products` (lines 210-240): clamps the limit to 100, resolves the
cursor against the in-memory ordered id list (missing id raises
`NotFoundException`), takes the slice `product_ids[start:start+limit]`,
always adds a "self" link, and adds a "next" pagination link pointing at
`product_ids[end]` exactly when `end > 0 and end < len(product_ids)`. -/
def get_products (r : RouterState) (req : Request) (next : Option String)
    (limit : Int) : HandlerResult ProductsCollection :=
  let limit := min limit 100
  match cursor_start r.product_ids next with
  | none => HandlerResult.notFound "Error finding pagination token for products"
  | some start =>
    let endIdx : Int := (start : Int) + limit
    let ids := pySlice r.product_ids start endIdx
    let links : List Link :=
      [{ href := url_for req (r.name ++ ":list-products") []
         rel := "self"
         type := TYPE_JSON }]
    let links :=
      if 0 < endIdx ∧ endIdx < (r.product_ids.length : Int) then
        links ++ [pagination_link req (r.product_ids.getD endIdx.toNat "")]
      else links
    HandlerResult.ok
      { products :=
          ids.filterMap (fun pid =>
            (List.lookup pid r.product_routers).map ProductRouter.product)
        links := links }

/-- The `match` body of `get_orders` (lines 245-267): on `Success` of a
2-tuple, the first case matches only a genuine `Some(pagination_token)` and
appends one pagination link; the second case (`Nothing` is a capture
pattern) matches any other cursor-slot value and appends no pagination link;
both decorate every order with its self link.  `Failure(ValueError())` raises
`NotFoundException`, any other `Failure` raises a 500 with the fixed detail,
and every remaining shape hits the `AssertionError`. -/
def get_orders_translate (r : RouterState) (req : Request)
    (res : ListBackendResult Order) : HandlerResult OrderCollection :=
  match res with
  | .successPair orders (.someTok pagination_token) =>
    HandlerResult.ok
      { features := orders.map (fun o => { o with links := o.links ++ [order_link r req o] })
        links := [pagination_link req pagination_token] }
  | .successPair orders (.other _) =>
    HandlerResult.ok
      { features := orders.map (fun o => { o with links := o.links ++ [order_link r req o] })
        links := [] }
  | .failure .valueError => HandlerResult.notFound "Error finding pagination token"
  | .failure _ => HandlerResult.internal "Error finding Orders"
  | .successOther _ => HandlerResult.assertionFail "Expected code to be unreachable"
  | .nonResult _ => HandlerResult.assertionFail "Expected code to be unreachable"

/-- Model of `get_orders` (lines 242-267): awaits `self._get_orders(next, limit,
request)` — the caller-supplied `next` and `limit` are forwarded to the
backend unchanged — and translates the result. -/
def get_orders (r : RouterState) (req : Request) (next : Option String)
    (limit : Int) (backend : Option String → Int → ListBackendResult Order) :
    HandlerResult OrderCollection :=
  get_orders_translate r req (backend next limit)

/-- The `match` body of `get_order_statuses` (lines 299-319): the cursor slot
is handled as in `get_orders` (the `Nothing` case is a capture pattern); both
success branches prepend the order-statuses self link.  Here the not-found
branch matches `Failure(KeyError())` — not `ValueError` — and any other
`Failure` raises a 500 with the fixed detail. -/
def get_order_statuses_translate (r : RouterState) (order_id : String)
    (req : Request) (res : ListBackendResult OrderStatus) :
    HandlerResult OrderStatuses :=
  match res with
  | .successPair statuses (.someTok pagination_token) =>
    HandlerResult.ok
      { statuses := statuses
        links := [order_statuses_link r req order_id, pagination_link req pagination_token] }
  | .successPair statuses (.other _) =>
    HandlerResult.ok
      { statuses := statuses
        links := [order_statuses_link r req order_id] }
  | .failure .keyError => HandlerResult.notFound "Error finding pagination token"
  | .failure _ => HandlerResult.internal "Error finding Order Statuses"
  | .successOther _ => HandlerResult.assertionFail "Expected code to be unreachable"
  | .nonResult _ => HandlerResult.assertionFail "Expected code to be unreachable"

/-- Model of `get_order_statuses` (lines 292-319): forwards `next` and `limit` to
`self._get_order_statuses(order_id, next, limit, request)` unchanged and
translates the result. -/
def get_order_statuses (r : RouterState) (order_id : String) (req : Request)
    (next : Option String) (limit : Int)
    (backend : Option String → Int → ListBackendResult OrderStatus) :
    HandlerResult OrderStatuses :=
  get_order_statuses_translate r order_id req (backend next limit)

/-- Model of `add_opportunity_search_record_self_link` (lines 438-451). -/
def opportunity_search_record_self_link (r : RouterState) (req : Request)
    (record : OpportunitySearchRecord) : Link :=
  { href := url_for req (r.name ++ ":get-opportunity-search-record") [record.id]
    rel := "self"
    type := TYPE_JSON }

/-- The `match` body of `get_opportunity_search_records` (lines 381-403):
cursor-slot handling as in `get_orders` (the `Nothing` case is a capture
pattern); each record gets its self link appended; `Failure(ValueError())`
raises `NotFoundException`, any other `Failure` a 500 with the fixed detail,
and every remaining shape hits the `AssertionError`. -/
def get_opportunity_search_records_translate (r : RouterState) (req : Request)
    (res : ListBackendResult OpportunitySearchRecord) :
    HandlerResult OpportunitySearchRecords :=
  match res with
  | .successPair records (.someTok pagination_token) =>
    HandlerResult.ok
      { search_records :=
          records.map (fun rec =>
            { rec with links := rec.links ++ [opportunity_search_record_self_link r req rec] })
        links := [pagination_link req pagination_token] }
  | .successPair records (.other _) =>
    HandlerResult.ok
      { search_records :=
          records.map (fun rec =>
            { rec with links := rec.links ++ [opportunity_search_record_self_link r req rec] })
        links := [] }
  | .failure .valueError => HandlerResult.notFound "Error finding pagination token"
  | .failure _ => HandlerResult.internal "Error finding Opportunity Search Records"
  | .successOther _ => HandlerResult.assertionFail "Expected code to be unreachable"
  | .nonResult _ => HandlerResult.assertionFail "Expected code to be unreachable"

/-- Model of `get_opportunity_search_records` (lines 378-403): forwards `next` and
`limit` to the backend unchanged and translates the result. -/
def get_opportunity_search_records (r : RouterState) (req : Request)
    (next : Option String) (limit : Int)
    (backend : Option String → Int → ListBackendResult OpportunitySearchRecord) :
    HandlerResult OpportunitySearchRecords :=
  get_opportunity_search_records_translate r req (backend next limit)

/-- Model of `add_order_links` (lines 336-350): appends a geo+JSON self link and a
monitor link to the order. -/
def add_order_links (r : RouterState) (req : Request) (order : Order) : Order :=
  { order with
      links := order.links ++
        [{ href := url_for req (r.name ++ ":get-order") [order.id]
           rel := "self"
           type := TYPE_GEOJSON },
         { href := url_for req (r.name ++ ":list-order-statuses") [order.id]
           rel := "monitor"
           type := TYPE_JSON }] }

/-- Model of `get_order` (lines 269-290): `Success(Some(order))` returns the decorated
order, `Success(Maybe.empty)` — a value pattern matching only the `Nothing`
singleton — raises a 404 "Order not found", any `Failure` raises a 500, and
every other shape (including a `Success` of any non-`Maybe` value) hits the
`AssertionError`. -/
def get_order (r : RouterState) (order_id : String) (req : Request)
    (backend : String → SingleBackendResult Order) : HandlerResult Order :=
  match backend order_id with
  | .successSome order => HandlerResult.ok (add_order_links r req order)
  | .successNothing => HandlerResult.notFound "Order not found"
  | .failure _ => HandlerResult.internal "Error finding Order"
  | .successOther _ => HandlerResult.assertionFail "Expected code to be unreachable"
  | .nonResult _ => HandlerResult.assertionFail "Expected code to be unreachable"

/-- Model of `get_opportunity_search_record` (lines 405-428): same shape discipline as
`get_order`, with its own detail strings and a JSON self link. -/
def get_opportunity_search_record (r : RouterState) (search_record_id : String)
    (req : Request) (backend : String → SingleBackendResult OpportunitySearchRecord) :
    HandlerResult OpportunitySearchRecord :=
  match backend search_record_id with
  | .successSome record =>
    HandlerResult.ok
      { record with links := record.links ++ [opportunity_search_record_self_link r req record] }
  | .successNothing => HandlerResult.notFound "Opportunity Search Record not found"
  | .failure _ => HandlerResult.internal "Error finding Opportunity Search Record"
  | .successOther _ => HandlerResult.assertionFail "Expected code to be unreachable"
  | .nonResult _ => HandlerResult.assertionFail "Expected code to be unreachable"

/-- Python `list.insert(i, x)` for an arbitrary integer index: a negative
index counts from the end, clamped at 0; a non-negative index is clamped at
the length. -/
def pyInsert {α : Type} (xs : List α) (i : Int) (x : α) : List α :=
  let n : Nat := if i < 0 then ((xs.length : Int) + i).toNat else min i.toNat xs.length
  xs.take n ++ x :: xs.drop n

/-- Model of `get_root` (lines 155-205): builds the six base links in order; when
`supports_async_opportunity_search` holds, `links.insert(-2, ...)` places the
opportunity-search-records link before the element currently at index
`len - 2`, i.e. just before the service-description link. -/
def get_root (r : RouterState) (req : Request) : RootResponse :=
  let links : List Link :=
    [{ href := url_for req (r.name ++ ":root") [], rel := "self", type := TYPE_JSON },
     { href := url_for req (r.name ++ ":conformance") [], rel := "conformance", type := TYPE_JSON },
     { href := url_for req (r.name ++ ":list-products") [], rel := "products", type := TYPE_JSON },
     { href := url_for req (r.name ++ ":list-orders") [], rel := "orders", type := TYPE_JSON },
     { href := url_for req r.openapi_endpoint_name [], rel := "service-description", type := TYPE_JSON },
     { href := url_for req r.docs_endpoint_name [], rel := "service-docs", type := "text/html" }]
  let links :=
    if supports_async_opportunity_search r then
      pyInsert links (-2)
        { href := url_for req (r.name ++ ":list-opportunity-search-records") []
          rel := "opportunity-search-records"
          type := TYPE_JSON }
    else links
  { id := "STAPI API", conformsTo := r.conformances, links := links }

/-- Assignment `d[k] = v` on an insertion-ordered Python dict: an existing
key keeps its position and gets the new value; a new key is appended. -/
def dict_set (m : List (String × ProductRouter)) (k : String) (v : ProductRouter) :
    List (String × ProductRouter) :=
  if m.any (fun p => p.1 = k) then
    m.map (fun p => if p.1 = k then (k, v) else p)
  else m ++ [(k, v)]

/-- Model of `add_product` (lines 321-326): builds the product's sub-router, stores it
under `product.id` in the registry dict, and rebuilds `product_ids` from the
dict's current key order. -/
def add_product (r : RouterState) (product : Product) : RouterState :=
  let product_router : ProductRouter := { product := product }
  let routers := dict_set r.product_routers product.id product_router
  { r with
      product_routers := routers
      product_ids := routers.map (fun p => p.1) }

/-- Links with relation "next" among a response's links. -/
def nextLinks (links : List Link) : List Link :=
  links.filter (fun l => l.rel == "next")

/-- Whether a `RootRouter` construction outcome is the raised `ValueError`. -/
def init_raises (x : Except String RouterState) : Bool :=
  match x with
  | .error _ => true
  | .ok _ => false

/-- A probe backend that reports, through the pagination token it returns,
whether the limit it received from the router exceeds 100. -/
def probeOrdersBackend : Option String → Int → ListBackendResult Order :=
  fun _ limit =>
    ListBackendResult.successPair []
      (CursorSlot.someTok (if 100 < limit then "unclamped" else "clamped"))

/-- A router state as built by `RootRouter.__init__` with the default
arguments: CORE conformance only, no async-opportunity backends, empty
registry. -/
def sampleRouter : RouterState :=
  { conformances := [CORE]
    name := "root"
    opp_search_records_attr := none
    opp_search_record_attr := none
    openapi_endpoint_name := "openapi"
    docs_endpoint_name := "swagger_ui_html"
    product_routers := []
    product_ids := [] }

/-- A router state with async opportunity search fully configured. -/
def asyncRouter : RouterState :=
  { sampleRouter with
      conformances := [CORE, ASYNC_OPPORTUNITIES]
      opp_search_records_attr := some ()
      opp_search_record_attr := some () }

/-- The state of `sampleRouter` after `add_product` of a single product "p1". -/
def sampleRouterP : RouterState :=
  add_product sampleRouter { id := "p1" }

/-- A sample request context. -/
def reqSample : Request :=
  { base := "http://testserver", url := "http://testserver/orders" }

/-- The state of `sampleRouter` after `add_product` of two products "p1" and "p2". -/
def sampleRouterP2 : RouterState :=
  add_product sampleRouterP { id := "p2" }

/-- A sample request context for the products endpoint. -/
def reqProducts : Request :=
  { base := "http://testserver", url := "http://testserver/products" }

/-- C2: for every backend-delegated list operation (`get_orders`,
`get_order_statuses`, `get_opportunity_search_records`), a successful backend
result whose cursor slot is `Some token` yields a response whose link
collection holds exactly one "next" link, with href equal to the current
request URL with the `next` query parameter set to that token; when the
cursor is absent (`Nothing`), the response holds no "next" link. -/
theorem claim_C2 : ∀ (r : RouterState) (oid : String) (req : Request) (tok : String)
    (orders : List Order) (statuses : List OrderStatus)
    (records : List OpportunitySearchRecord),
    (∃ col, get_orders_translate r req (.successPair orders (.someTok tok)) = .ok col ∧
      nextLinks col.links =
        [{ href := include_query_params req.url tok, rel := "next", type := TYPE_JSON }]) ∧
    (∃ col, get_orders_translate r req (.successPair orders (.other .nothingMaybe)) = .ok col ∧
      nextLinks col.links = []) ∧
    (∃ col, get_order_statuses_translate r oid req (.successPair statuses (.someTok tok)) = .ok col ∧
      nextLinks col.links =
        [{ href := include_query_params req.url tok, rel := "next", type := TYPE_JSON }]) ∧
    (∃ col, get_order_statuses_translate r oid req
        (.successPair statuses (.other .nothingMaybe)) = .ok col ∧
      nextLinks col.links = []) ∧
    (∃ col, get_opportunity_search_records_translate r req
        (.successPair records (.someTok tok)) = .ok col ∧
      nextLinks col.links =
        [{ href := include_query_params req.url tok, rel := "next", type := TYPE_JSON }]) ∧
    (∃ col, get_opportunity_search_records_translate r req
        (.successPair records (.other .nothingMaybe)) = .ok col ∧
      nextLinks col.links = []) := by
  intro r oid req tok orders statuses records
  refine ⟨⟨_, rfl, ?_⟩, ⟨_, rfl, ?_⟩, ⟨_, rfl, ?_⟩, ⟨_, rfl, ?_⟩, ⟨_, rfl, ?_⟩, ⟨_, rfl, ?_⟩⟩ <;>
    simp [nextLinks, pagination_link, order_statuses_link, include_query_params, List.filter]

/-- C3 (amended): `get_orders` and `get_opportunity_search_records` translate
a `Failure(ValueError)` to not-found and every other failure kind to a 500
with their fixed generic details, while `get_order_statuses` uses `KeyError`
— not `ValueError` — as its not-found error kind; the error-kind-to-outcome
rule is therefore not literally identical across the three operations. -/
theorem claim_C3_amended : ∀ (r : RouterState) (oid : String) (req : Request) (e : PyError),
    get_orders_translate r req (.failure e) =
      (if e = .valueError then HandlerResult.notFound "Error finding pagination token"
       else HandlerResult.internal "Error finding Orders") ∧
    get_order_statuses_translate r oid req (.failure e) =
      (if e = .keyError then HandlerResult.notFound "Error finding pagination token"
       else HandlerResult.internal "Error finding Order Statuses") ∧
    get_opportunity_search_records_translate r req (.failure e) =
      (if e = .valueError then HandlerResult.notFound "Error finding pagination token"
       else HandlerResult.internal "Error finding Opportunity Search Records") := by
  intro r oid req e
  cases e <;>
    simp [get_orders_translate, get_order_statuses_translate,
      get_opportunity_search_records_translate]

/-- C3 counterexample: the same concrete error kind — `ValueError`, the kind
the cursor-resolution code of the bundled backend raises for an unresolvable
cursor and the kind `get_orders` maps to 404 — is mapped by
`get_order_statuses` to a 500, so the error-kind-to-outcome rule is not
applied identically by the three list operations. -/
theorem claim_C3_counterexample :
    get_orders_translate sampleRouter reqSample (.failure .valueError) =
      HandlerResult.notFound "Error finding pagination token" ∧
    get_order_statuses_translate sampleRouter "o1" reqSample (.failure .valueError) =
      HandlerResult.internal "Error finding Order Statuses" ∧
    HandlerResult.internal (α := OrderStatuses) "Error finding Order Statuses" ≠
      HandlerResult.notFound "Error finding pagination token" := by
  refine ⟨rfl, rfl, by decide⟩

/-- C4: in every backend-delegated operation, a backend result that matches
neither the expected success shapes nor the `Failure` shape reaches the
`AssertionError` branch — it never becomes a normal success or a recoverable
error response. -/
theorem claim_C4 : ∀ (r : RouterState) (oid sid : String) (req : Request) (v : PyShape),
    get_orders_translate r req (.successOther v) =
      HandlerResult.assertionFail "Expected code to be unreachable" ∧
    get_orders_translate r req (.nonResult v) =
      HandlerResult.assertionFail "Expected code to be unreachable" ∧
    get_order_statuses_translate r oid req (.successOther v) =
      HandlerResult.assertionFail "Expected code to be unreachable" ∧
    get_order_statuses_translate r oid req (.nonResult v) =
      HandlerResult.assertionFail "Expected code to be unreachable" ∧
    get_opportunity_search_records_translate r req (.successOther v) =
      HandlerResult.assertionFail "Expected code to be unreachable" ∧
    get_opportunity_search_records_translate r req (.nonResult v) =
      HandlerResult.assertionFail "Expected code to be unreachable" ∧
    get_order r oid req (fun _ => .successOther v) =
      HandlerResult.assertionFail "Expected code to be unreachable" ∧
    get_order r oid req (fun _ => .nonResult v) =
      HandlerResult.assertionFail "Expected code to be unreachable" ∧
    get_opportunity_search_record r sid req (fun _ => .successOther v) =
      HandlerResult.assertionFail "Expected code to be unreachable" ∧
    get_opportunity_search_record r sid req (fun _ => .nonResult v) =
      HandlerResult.assertionFail "Expected code to be unreachable" := by
  intro r oid sid req v
  exact ⟨rfl, rfl, rfl, rfl, rfl, rfl, rfl, rfl, rfl, rfl⟩

/-- C10: in every backend-delegated list operation, a successful backend
result whose second tuple component is anything other than a genuine
`Some(token)` — the `Nothing` singleton, `None`, the empty string, a bare
unwrapped string token as the bundled in-memory backend returns, or any
other value — is matched by the capture-pattern branch and treated as "no
next cursor": the operation returns a success with no "next" link and never
reaches the fatal-assertion branch for such two-tuple success values. -/
theorem claim_C10 : ∀ (r : RouterState) (oid : String) (req : Request) (v : PyShape)
    (orders : List Order) (statuses : List OrderStatus)
    (records : List OpportunitySearchRecord),
    (∃ col, get_orders_translate r req (.successPair orders (.other v)) = .ok col ∧
      nextLinks col.links = []) ∧
    (∃ col, get_order_statuses_translate r oid req (.successPair statuses (.other v)) = .ok col ∧
      nextLinks col.links = []) ∧
    (∃ col, get_opportunity_search_records_translate r req
        (.successPair records (.other v)) = .ok col ∧
      nextLinks col.links = []) := by
  intro r oid req v orders statuses records
  refine ⟨⟨_, rfl, ?_⟩, ⟨_, rfl, ?_⟩, ⟨_, rfl, ?_⟩⟩ <;>
    simp [nextLinks, order_statuses_link, List.filter]

/-- C1 (amended): the router layer clamps the caller-supplied limit to
`min(limit, 100)` only in `get_products`; the backend-delegated list
operations (`get_orders`, `get_order_statuses`,
`get_opportunity_search_records`) forward the caller-supplied cursor and
limit to the backend unchanged, with no router-layer clamp. -/
theorem claim_C1_amended : ∀ (r : RouterState) (oid : String) (req : Request)
    (next : Option String) (limit : Int),
    get_products r req next limit = get_products r req next (min limit 100) ∧
    (∀ backend, get_orders r req next limit backend =
      get_orders_translate r req (backend next limit)) ∧
    (∀ backend, get_order_statuses r oid req next limit backend =
      get_order_statuses_translate r oid req (backend next limit)) ∧
    (∀ backend, get_opportunity_search_records r req next limit backend =
      get_opportunity_search_records_translate r req (backend next limit)) := by
  intro r oid req next limit
  refine ⟨?_, fun _ => rfl, fun _ => rfl, fun _ => rfl⟩
  simp [get_products, min_assoc]

/-- C1 counterexample: `get_orders` called with limit 200 hands the backend a
limit above 100 (the probe backend echoes whether the limit it received
exceeds 100 through the pagination token), so the router layer applies no
clamp on this list endpoint and the response differs from the one a clamped
limit `min(200, 100)` produces. -/
theorem claim_C1_counterexample :
    get_orders sampleRouter reqSample none 200 probeOrdersBackend =
      HandlerResult.ok
        { features := []
          links := [pagination_link reqSample "unclamped"] } ∧
    get_orders sampleRouter reqSample none 200 probeOrdersBackend ≠
      get_orders sampleRouter reqSample none (min 200 100) probeOrdersBackend := by
  refine ⟨rfl, by decide⟩

/-- C6: `RootRouter` construction raises its configuration `ValueError` if
and only if the async-opportunities conformance identifier is declared and at
least one of the two opportunity-search backend functions is absent; in every
other configuration construction succeeds. -/
theorem claim_C6 : ∀ (gosrs gosr : Option Unit) (conformances : List String)
    (name oe de : String),
    init_raises (rootRouterInit gosrs gosr conformances name oe de) = true ↔
      (ASYNC_OPPORTUNITIES ∈ conformances ∧ (gosrs = none ∨ gosr = none)) := by
  intro gosrs gosr conformances name oe de
  by_cases hmem : ASYNC_OPPORTUNITIES ∈ conformances <;>
    cases gosrs <;> cases gosr <;>
      simp [rootRouterInit, init_raises, hmem]

theorem list_index_eq_none (s : String) (l : List String) (h : ¬ s ∈ l) :
    list_index s l = none := by
  induction l with
  | nil => rfl
  | cons a t ih =>
    simp only [List.mem_cons, not_or] at h
    simp [list_index, Ne.symm h.1, ih h.2]

theorem list_index_some (s : String) (l : List String) (i : Nat)
    (h : list_index s l = some i) : i < l.length ∧ l.get? i = some s := by
  induction l generalizing i with
  | nil => simp [list_index] at h
  | cons a t ih =>
    by_cases ha : a = s
    · simp [list_index, ha] at h
      subst h
      simp [ha]
    · simp only [list_index, ha, if_false, Option.map_eq_some'] at h
      obtain ⟨j, hj, hji⟩ := h
      subst hji
      have hfacts := ih j hj
      exact ⟨by simpa using Nat.succ_lt_succ hfacts.1, by simpa using hfacts.2⟩

/-- C5: a non-empty `next` cursor absent from the product-id list makes
`get_products` raise the not-found error with the pagination-token detail —
never a 500 and never an empty success. -/
theorem claim_C5 : ∀ (r : RouterState) (req : Request) (s : String) (limit : Int),
    s ≠ "" → ¬ s ∈ r.product_ids →
    get_products r req (some s) limit =
      HandlerResult.notFound "Error finding pagination token for products" := by
  intro r req s limit hs hmem
  simp [get_products, cursor_start, hs, list_index_eq_none s _ hmem]

/-- C5 applied at a concrete router holding product "p1" and the stray cursor
"zz". -/
theorem claim_C5_witness :
    ("zz" ≠ "" ∧ ¬ "zz" ∈ sampleRouterP.product_ids) ∧
    get_products sampleRouterP reqSample (some "zz") 10 =
      HandlerResult.notFound "Error finding pagination token for products" :=
  ⟨⟨by decide, by decide⟩,
    claim_C5 sampleRouterP reqSample "zz" 10 (by decide) (by decide)⟩

theorem dict_set_keys (m : List (String × ProductRouter)) (k : String) (v : ProductRouter) :
    (dict_set m k v).map (fun p => p.1) =
      if k ∈ m.map (fun p => p.1) then m.map (fun p => p.1)
      else m.map (fun p => p.1) ++ [k] := by
  by_cases h : k ∈ m.map (fun p => p.1)
  · have hany : m.any (fun p => p.1 = k) = true := by
      obtain ⟨q, hq, hqk⟩ := List.mem_map.mp h
      simp only [List.any_eq_true, decide_eq_true_eq]
      exact ⟨q, hq, hqk⟩
    simp only [dict_set, hany, if_true, h, List.map_map]
    apply List.map_congr_left
    intro q _
    by_cases hqk : q.1 = k <;> simp [hqk]
  · have hany : m.any (fun p => p.1 = k) = false := by
      simp only [List.any_eq_false, decide_eq_true_eq]
      intro q hq hqk
      exact h (List.mem_map.mpr ⟨q, hq, hqk⟩)
    simp [dict_set, hany, h]

theorem lookup_append_missing (m : List (String × ProductRouter)) (k : String)
    (v : ProductRouter) (h : ¬ k ∈ m.map (fun p => p.1)) :
    List.lookup k (m ++ [(k, v)]) = some v := by
  induction m with
  | nil => simp [List.lookup]
  | cons a t ih =>
    simp only [List.map_cons, List.mem_cons, not_or] at h
    have hne : (k == a.1) = false := beq_eq_false_iff_ne.mpr h.1
    simpa [List.lookup, hne] using ih h.2

theorem lookup_map_subst (m : List (String × ProductRouter)) (k : String)
    (v : ProductRouter) (h : k ∈ m.map (fun p => p.1)) :
    List.lookup k (m.map (fun p => if p.1 = k then (k, v) else p)) = some v := by
  induction m with
  | nil => simp at h
  | cons a t ih =>
    by_cases hak : a.1 = k
    · simp only [List.map_cons, if_pos hak]
      simp [List.lookup]
    · have h2 : k = a.1 ∨ k ∈ t.map (fun p => p.1) := by
        simpa only [List.map_cons, List.mem_cons] using h
      have hk : k ∈ t.map (fun p => p.1) := by
        rcases h2 with h1 | h1
        · exact absurd h1.symm hak
        · exact h1
      have hne : (k == a.1) = false := beq_eq_false_iff_ne.mpr fun he => hak he.symm
      simp only [List.map_cons, if_neg hak]
      simpa [List.lookup, hne] using ih hk

theorem lookup_dict_set (m : List (String × ProductRouter)) (k : String)
    (v : ProductRouter) : List.lookup k (dict_set m k v) = some v := by
  by_cases h : k ∈ m.map (fun p => p.1)
  · have hany : m.any (fun p => p.1 = k) = true := by
      obtain ⟨q, hq, hqk⟩ := List.mem_map.mp h
      simp only [List.any_eq_true, decide_eq_true_eq]
      exact ⟨q, hq, hqk⟩
    simpa [dict_set, hany] using lookup_map_subst m k v h
  · have hany : m.any (fun p => p.1 = k) = false := by
      simp only [List.any_eq_false, decide_eq_true_eq]
      intro q hq hqk
      exact h (List.mem_map.mpr ⟨q, hq, hqk⟩)
    simpa [dict_set, hany] using lookup_append_missing m k v h

theorem mem_keys_dict_set (m : List (String × ProductRouter)) (k : String)
    (v : ProductRouter) : k ∈ (dict_set m k v).map (fun p => p.1) := by
  rw [dict_set_keys]
  by_cases h : k ∈ m.map (fun p => p.1) <;> simp [h]

theorem nodup_keys_dict_set (m : List (String × ProductRouter)) (k : String)
    (v : ProductRouter) (h : (m.map (fun p => p.1)).Nodup) :
    ((dict_set m k v).map (fun p => p.1)).Nodup := by
  rw [dict_set_keys]
  by_cases hk : k ∈ m.map (fun p => p.1) <;> simp [hk, h, List.nodup_append]

theorem entries_dict_set (m : List (String × ProductRouter)) (k : String)
    (v : ProductRouter) (q : String × ProductRouter) (hq : q ∈ dict_set m k v) :
    q = (k, v) ∨ q ∈ m := by
  by_cases hany : m.any (fun p => p.1 = k) = true
  · simp only [dict_set, hany, if_true] at hq
    obtain ⟨p, hp, hpe⟩ := List.mem_map.mp hq
    by_cases hpk : p.1 = k
    · simp only [hpk, if_true] at hpe
      exact Or.inl hpe.symm
    · simp only [hpk, if_false] at hpe
      exact Or.inr (hpe ▸ hp)
  · have hany2 : m.any (fun p => p.1 = k) = false := Bool.eq_false_iff.mpr hany
    simp [dict_set, hany2] at hq
    rcases hq with h1 | h1
    · exact Or.inr h1
    · exact Or.inl h1

theorem add_product_registry_wf (r : RouterState) (p : Product)
    (hnd : (r.product_routers.map (fun q => q.1)).Nodup)
    (hids : r.product_ids = r.product_routers.map (fun q => q.1))
    (hpr : ∀ q ∈ r.product_routers, q.2.product.id = q.1) :
    ((add_product r p).product_routers.map (fun q => q.1)).Nodup ∧
    (add_product r p).product_ids = (add_product r p).product_routers.map (fun q => q.1) ∧
    ∀ q ∈ (add_product r p).product_routers, q.2.product.id = q.1 := by
  refine ⟨nodup_keys_dict_set _ _ _ hnd, rfl, ?_⟩
  intro q hq
  rcases entries_dict_set _ _ _ q hq with h1 | h1
  · rw [h1]
  · exact hpr q h1

theorem foldl_add_product_wf (ps : List Product) (r : RouterState)
    (hnd : (r.product_routers.map (fun q => q.1)).Nodup)
    (hids : r.product_ids = r.product_routers.map (fun q => q.1))
    (hpr : ∀ q ∈ r.product_routers, q.2.product.id = q.1) :
    ((ps.foldl add_product r).product_routers.map (fun q => q.1)).Nodup ∧
    (ps.foldl add_product r).product_ids =
      (ps.foldl add_product r).product_routers.map (fun q => q.1) ∧
    ∀ q ∈ (ps.foldl add_product r).product_routers, q.2.product.id = q.1 := by
  induction ps generalizing r with
  | nil => exact ⟨hnd, hids, hpr⟩
  | cons p t ih =>
    have hstep := add_product_registry_wf r p hnd hids hpr
    simpa [List.foldl_cons] using ih (add_product r p) hstep.1 hstep.2.1 hstep.2.2

/-- C7: `add_product` is idempotent by product id — starting from a freshly
constructed router, after any sequence of `add_product` calls ending with
product `p`, the registry holds exactly one entry for `p.id` (its key list
counts it once and is duplicate-free), that entry is the router built from
the most recent `p` (last write wins), and the derived `product_ids` list
equals the registry's current key order. -/
theorem claim_C7 : ∀ (r0 : RouterState) (ps : List Product) (p : Product),
    r0.product_routers = [] → r0.product_ids = [] →
    (((ps ++ [p]).foldl add_product r0).product_routers.map (fun q => q.1)).Nodup ∧
    ((ps ++ [p]).foldl add_product r0).product_ids =
      ((ps ++ [p]).foldl add_product r0).product_routers.map (fun q => q.1) ∧
    List.lookup p.id ((ps ++ [p]).foldl add_product r0).product_routers =
      some { product := p } ∧
    (((ps ++ [p]).foldl add_product r0).product_routers.map (fun q => q.1)).count p.id = 1 := by
  intro r0 ps p h0 h0ids
  have hwf := foldl_add_product_wf ps r0 (by simp [h0]) (by simp [h0, h0ids])
    (by simp [h0])
  have hfold : (ps ++ [p]).foldl add_product r0 =
      add_product (ps.foldl add_product r0) p := by
    simp [List.foldl_append]
  set r1 := ps.foldl add_product r0 with hr1
  rw [hfold]
  have hstep := add_product_registry_wf r1 p hwf.1 hwf.2.1 hwf.2.2
  refine ⟨hstep.1, hstep.2.1, ?_, ?_⟩
  · exact lookup_dict_set r1.product_routers p.id { product := p }
  · exact List.count_eq_one_of_mem hstep.1
      (mem_keys_dict_set r1.product_routers p.id { product := p })

/-- C7 applied at a concrete sequence that registers the id "p1" twice. -/
theorem claim_C7_witness :
    ((([⟨"p1"⟩] ++ [⟨"p1"⟩] : List Product).foldl add_product
        sampleRouter).product_routers.map (fun q => q.1)).Nodup ∧
    (([⟨"p1"⟩] ++ [⟨"p1"⟩] : List Product).foldl add_product sampleRouter).product_ids =
      (([⟨"p1"⟩] ++ [⟨"p1"⟩] : List Product).foldl add_product
        sampleRouter).product_routers.map (fun q => q.1) ∧
    List.lookup "p1"
      (([⟨"p1"⟩] ++ [⟨"p1"⟩] : List Product).foldl add_product
        sampleRouter).product_routers = some { product := ⟨"p1"⟩ } ∧
    ((([⟨"p1"⟩] ++ [⟨"p1"⟩] : List Product).foldl add_product
        sampleRouter).product_routers.map (fun q => q.1)).count "p1" = 1 :=
  claim_C7 sampleRouter [⟨"p1"⟩] ⟨"p1"⟩ rfl rfl

theorem mem_of_lookup (m : List (String × ProductRouter)) (k : String)
    (v : ProductRouter) (h : List.lookup k m = some v) : (k, v) ∈ m := by
  induction m with
  | nil => simp [List.lookup] at h
  | cons a t ih =>
    by_cases hk : (k == a.1) = true
    · have hka : k = a.1 := eq_of_beq hk
      simp [List.lookup, hk] at h
      subst hka h
      exact List.mem_cons_self _ _
    · have hk2 : (k == a.1) = false := Bool.eq_false_iff.mpr hk
      simp only [List.lookup, hk2] at h
      exact List.mem_cons_of_mem a (ih h)

theorem lookup_isSome_of_mem_keys (m : List (String × ProductRouter)) (k : String)
    (h : k ∈ m.map (fun p => p.1)) : ∃ v, List.lookup k m = some v := by
  induction m with
  | nil => simp at h
  | cons a t ih =>
    by_cases hk : (k == a.1) = true
    · exact ⟨a.2, by simp [List.lookup, hk]⟩
    · have hk2 : (k == a.1) = false := Bool.eq_false_iff.mpr hk
      have hka : ¬ k = a.1 := by simpa using hk
      have hmem : k ∈ t.map (fun p => p.1) := by
        rcases List.mem_cons.mp (by simpa only [List.map_cons] using h) with h1 | h1
        · exact absurd h1 hka
        · exact h1
      obtain ⟨v, hv⟩ := ih hmem
      exact ⟨v, by simp [List.lookup, hk2, hv]⟩

theorem filterMap_map_id_of (l : List String) (f : String → Option Product)
    (h : ∀ x ∈ l, ∃ p, f x = some p ∧ p.id = x) :
    (l.filterMap f).map (fun p => p.id) = l := by
  induction l with
  | nil => rfl
  | cons a t ih =>
    obtain ⟨p, hf, hid⟩ := h a (List.mem_cons_self a t)
    simp [List.filterMap_cons, hf, hid,
      ih (fun x hx => h x (List.mem_cons_of_mem a hx))]

theorem mem_pySlice {α : Type} (xs : List α) (start : Nat) (stop : Int) (x : α)
    (h : x ∈ pySlice xs start stop) : x ∈ xs := by
  simp only [pySlice] at h
  exact List.mem_of_mem_take (List.mem_of_mem_drop h)

theorem pySlice_length_le {α : Type} (xs : List α) (start m : Nat) :
    (pySlice xs start ((start : Int) + (m : Int))).length ≤ m := by
  simp only [pySlice]
  have h0 : ¬ ((start : Int) + (m : Int) < 0) := by omega
  rw [if_neg h0]
  simp only [List.length_drop, List.length_take]
  omega

/-- C8 (amended): for every `get_products` call with a caller limit of at
least 1 that succeeds on a well-formed registry, the response contains a
"self" link, its page is the contiguous slice
`product_ids[start : start + min(limit, 100)]` of the id list of length at
most the effective limit, and it contains a "next" link if and only if more
product ids remain after the end of the page.  The restriction to limits of
at least 1 is forced by the counterexample: with limit 0 and no cursor the
page end index is 0, the code's `end > 0` guard fails, and no "next" link is
emitted although ids remain; the original unrestricted if-and-only-if does
not hold for such calls. -/
theorem claim_C8_amended : ∀ (r : RouterState) (req : Request) (next : Option String)
    (limit : Int) (start : Nat) (col : ProductsCollection),
    r.product_ids = r.product_routers.map (fun q => q.1) →
    (∀ q ∈ r.product_routers, q.2.product.id = q.1) →
    1 ≤ limit →
    cursor_start r.product_ids next = some start →
    get_products r req next limit = HandlerResult.ok col →
    col.links.filter (fun l => l.rel == "self") ≠ [] ∧
    col.products.map (fun p => p.id) =
      pySlice r.product_ids start ((start : Int) + min limit 100) ∧
    (col.products.length : Int) ≤ min limit 100 ∧
    (nextLinks col.links ≠ [] ↔
      (start : Int) + min limit 100 < (r.product_ids.length : Int)) := by
  intro r req next limit start col hids hpr hlim hstart hok
  have hL1 : (1 : Int) ≤ min limit 100 := le_min hlim (by norm_num)
  simp only [get_products, hstart] at hok
  rw [HandlerResult.ok.injEq] at hok
  subst hok
  have hpage : ∀ pid ∈ pySlice r.product_ids start ((start : Int) + min limit 100),
      ∃ p, (List.lookup pid r.product_routers).map ProductRouter.product = some p ∧
        p.id = pid := by
    intro pid hpid
    have hkeys : pid ∈ r.product_routers.map (fun q => q.1) :=
      hids ▸ mem_pySlice r.product_ids start _ pid hpid
    obtain ⟨v, hv⟩ := lookup_isSome_of_mem_keys r.product_routers pid hkeys
    refine ⟨v.product, by simp [hv], ?_⟩
    exact hpr (pid, v) (mem_of_lookup r.product_routers pid v hv)
  refine ⟨?_, ?_, ?_, ?_⟩
  · by_cases hcond : 0 < (start : Int) + min limit 100 ∧
        (start : Int) + min limit 100 < (r.product_ids.length : Int) <;>
      simp [hcond]
  · exact filterMap_map_id_of _ _ hpage
  · dsimp only
    have hlen : (pySlice r.product_ids start ((start : Int) + min limit 100)).length ≤
        (min limit 100).toNat := by
      have hcast : (start : Int) + min limit 100 =
          (start : Int) + ((min limit 100).toNat : Int) := by omega
      rw [hcast]
      exact pySlice_length_le r.product_ids start (min limit 100).toNat
    have hfm := List.length_filterMap_le
      (fun pid => (List.lookup pid r.product_routers).map ProductRouter.product)
      (pySlice r.product_ids start ((start : Int) + min limit 100))
    omega
  · have hpos : 0 < (start : Int) + min limit 100 := by omega
    by_cases hlt : (start : Int) + min limit 100 < (r.product_ids.length : Int)
    · have hcond : 0 < (start : Int) + min limit 100 ∧
          (start : Int) + min limit 100 < (r.product_ids.length : Int) := ⟨hpos, hlt⟩
      simp [hcond, nextLinks, pagination_link, hlt]
    · have hcond : ¬ (0 < (start : Int) + min limit 100 ∧
          (start : Int) + min limit 100 < (r.product_ids.length : Int)) :=
        fun hc => hlt hc.2
      simp [hcond, nextLinks, hlt]

/-- C8 counterexample: with caller limit 0 on a router holding one product,
the page is empty and a product id remains beyond the page end, yet the
response carries no "next" link (the code's `end > 0` guard fails), refuting
the claimed "if and only if more product ids remain" for every call. -/
theorem claim_C8_counterexample :
    get_products sampleRouterP reqProducts none 0 =
      HandlerResult.ok
        { products := []
          links := [{ href := "http://testserver/root:list-products"
                      rel := "self"
                      type := "application/json" }] } ∧
    sampleRouterP.product_ids = ["p1"] := by
  exact ⟨by decide, by decide⟩

/-- C8 applied at a concrete two-product router with limit 1: the page is
["p1"] and a "next" link is present because "p2" remains. -/
theorem claim_C8_witness :
    ({ products := [{ id := "p1" }], links := [{ href := "http://testserver/root:list-products", rel := "self", type := "application/json" }, { href := "http://testserver/products?next=p2", rel := "next", type := "application/json" }] } : ProductsCollection).links.filter (fun l => l.rel == "self") ≠ [] ∧
    ({ products := [{ id := "p1" }], links := [{ href := "http://testserver/root:list-products", rel := "self", type := "application/json" }, { href := "http://testserver/products?next=p2", rel := "next", type := "application/json" }] } : ProductsCollection).products.map (fun p => p.id) =
      pySlice sampleRouterP2.product_ids 0 ((0 : Int) + min 1 100) ∧
    ((({ products := [{ id := "p1" }], links := [{ href := "http://testserver/root:list-products", rel := "self", type := "application/json" }, { href := "http://testserver/products?next=p2", rel := "next", type := "application/json" }] } : ProductsCollection).products.length : Int)) ≤ min 1 100 ∧
    (nextLinks ({ products := [{ id := "p1" }], links := [{ href := "http://testserver/root:list-products", rel := "self", type := "application/json" }, { href := "http://testserver/products?next=p2", rel := "next", type := "application/json" }] } : ProductsCollection).links ≠ [] ↔
      ((0 : Nat) : Int) + min 1 100 < (sampleRouterP2.product_ids.length : Int)) :=
  claim_C8_amended sampleRouterP2 reqProducts none 1 0 _
    (by decide) (by decide) (by decide) (by decide) (by decide)

/-- C9 (amended): when async opportunity search is fully configured,
`get_root` returns self, conformance, products, orders,
opportunity-search-records, service-description and service-docs links in
that order — the opportunity-search-records link sits third-to-last, at the
fixed position just before the service-description and service-docs links
(not second-to-last as originally claimed); when the capability is not fully
configured the list holds exactly the six base links in order. -/
theorem claim_C9_amended : ∀ (r : RouterState) (req : Request),
    (supports_async_opportunity_search r = true →
      (get_root r req).links.map (fun l => l.rel) =
        ["self", "conformance", "products", "orders",
         "opportunity-search-records", "service-description", "service-docs"]) ∧
    (supports_async_opportunity_search r = false →
      (get_root r req).links.map (fun l => l.rel) =
        ["self", "conformance", "products", "orders",
         "service-description", "service-docs"]) := by
  intro r req
  constructor <;> intro h <;> simp [get_root, h, pyInsert]

/-- C9 counterexample: on a fully configured router the link list has seven
entries, the second-to-last (index 5) is the service-description link, and
the opportunity-search-records link sits at index 4 (third-to-last) — the
insertion at Python index -2 lands just before service-description, so the
link is not second-to-last as claimed. -/
theorem claim_C9_counterexample :
    ((get_root asyncRouter reqSample).links.map (fun l => l.rel)).length = 7 ∧
    ((get_root asyncRouter reqSample).links.map (fun l => l.rel)).getD 5 "" =
      "service-description" ∧
    ((get_root asyncRouter reqSample).links.map (fun l => l.rel)).getD 4 "" =
      "opportunity-search-records" := by
  exact ⟨by decide, by decide, by decide⟩

/-- C9 applied at a configured and an unconfigured concrete router. -/
theorem claim_C9_witness :
    (get_root asyncRouter reqSample).links.map (fun l => l.rel) =
      ["self", "conformance", "products", "orders",
       "opportunity-search-records", "service-description", "service-docs"] ∧
    (get_root sampleRouter reqSample).links.map (fun l => l.rel) =
      ["self", "conformance", "products", "orders",
       "service-description", "service-docs"] :=
  ⟨(claim_C9_amended asyncRouter reqSample).1 (by decide),
   (claim_C9_amended sampleRouter reqSample).2 (by decide)⟩

end Stapi
